import Mathlib

/-!
Verification development for the scheduler of this repository
(src/scheduler.py): a polling rule-evaluation engine over a document
store, with five evaluators (grace-period violation, auto clock-out,
inactivity reminder, geofence leave, license expiry) and a shared alert
emitter.

Modelling conventions, applied uniformly:
* Timestamps are modelled as `Int` seconds since the Unix epoch, in UTC.
  The Python code stores ISO-8601 strings with second-or-finer precision
  and compares them lexicographically, which agrees with chronological
  order at this granularity; `datetime` arithmetic becomes `Int`
  arithmetic (`timedelta(minutes=g)` is `g * 60` seconds,
  `timedelta.days` is floor division by 86400).
* A document field the code reads with `dict.get` (so it may be missing
  or null) is an `Option`; a field the code indexes directly
  (`d["field"]`) and whose nullability no property concerns is a plain
  required field.  Python truthiness tests (`not x`) on optional strings
  and numbers are modelled by the `optStrFalsy` / `optRatFalsy` helpers
  (missing, empty string, and zero are falsy).
* Firestore collections are Lean lists of documents; `where` filters are
  list filters, `document(id).get()` is `List.find?` on the id,
  `update` maps over the collection rewriting the matching document, and
  `add` appends.
* Python exceptions (indexing a missing/null field, a store call
  raising) abort the running evaluator; evaluators in which such a raise
  is reachable from the modelled states return `Except String`, and a
  raise is `.error`.  The code installs no exception handler.
* Fractional hours are exact rationals; Python `round(x, 2)` is
  round-half-to-even at two decimals (`round2`).  The inputs evaluated
  here are far from ties, so the float/rational distinction is inert.
-/

/-- One document of the `systemAlerts` collection, exactly the fields
written by `create_system_alert` in src/scheduler.py. -/
structure Alert where
  agencyId : String
  title : String
  message : String
  severity : String
  category : String
  siteId : Option String
  timestamp : Int
  read : Bool
  deriving DecidableEq, Repr

/-- One document of the `agencySettings` collection; its Firestore
document id is `id`.  All settings fields are read with `dict.get`. -/
structure AgencySettingsDoc where
  id : String
  clockInGracePeriod : Option Int
  autoClockOut : Option Bool
  activityReportFrequency : Option String
  licenseExpiryReminder : Option String
  geofenceTriggerDelay : Option Int
  deriving DecidableEq, Repr

/-- One document of the `shifts` collection.  `shiftStart` and
`shiftEnd` are indexed directly by the code; `siteId` and `employeeId`
are read with `dict.get`. -/
structure ShiftDoc where
  id : String
  agencyId : String
  shiftStart : Int
  shiftEnd : Int
  siteId : Option String
  employeeId : Option String
  status : String
  updatedAt : Option Int
  deriving DecidableEq, Repr

/-- One document of the `attendance` collection.  `clockIn` is an
`Option` because the spec explicitly discusses records whose `clockIn`
is null; indexing a null `clockIn` in Python raises. -/
structure AttendanceDoc where
  id : String
  shiftId : Option String
  agencyId : String
  userId : String
  clockIn : Option Int
  clockOut : Option Int
  hoursWorked : Option ℚ
  updatedAt : Option Int
  deriving DecidableEq, Repr

/-- The `lastKnownLocation` sub-document of an employee. -/
structure LocationDoc where
  lat : Option ℚ
  lng : Option ℚ
  updatedAt : Option Int
  deriving DecidableEq, Repr

/-- One document of the `employees` collection. -/
structure EmployeeDoc where
  id : String
  agencyId : Option String
  name : Option String
  assignedsiteID : Option String
  lastKnownLocation : Option LocationDoc
  deriving DecidableEq, Repr

/-- One vertex of a site polygon; the code indexes `lat` and `lng`
directly. -/
structure Coord where
  lat : ℚ
  lng : ℚ
  deriving DecidableEq, Repr

/-- One document of the `sites` collection. -/
structure SiteDoc where
  id : String
  coordinates : List Coord
  deriving DecidableEq, Repr

/-- One document of the `licenses` collection. -/
structure LicenseDoc where
  id : String
  agencyId : Option String
  expiryDate : Option Int
  employeeId : String
  deriving DecidableEq, Repr

/-- The document store: the collections read or written by the
evaluators of src/scheduler.py. -/
structure Store where
  agencySettings : List AgencySettingsDoc
  shifts : List ShiftDoc
  attendance : List AttendanceDoc
  employees : List EmployeeDoc
  sites : List SiteDoc
  licenses : List LicenseDoc
  systemAlerts : List Alert
  deriving DecidableEq, Repr

/-- Python truthiness of an optional string: `not x` is true when the
value is missing or the empty string. -/
def optStrFalsy (o : Option String) : Bool :=
  match o with
  | none => true
  | some s => s == ""

/-- Python truthiness of an optional number: `not x` is true when the
value is missing or zero. -/
def optRatFalsy (o : Option ℚ) : Bool :=
  match o with
  | none => true
  | some v => v == 0

/-- Two-digit zero-padded rendering of a number below 100, as in an
ISO-8601 time field. -/
def pad2 (n : Nat) : String :=
  if n < 10 then "0" ++ toString n else toString n

/-- The `HH:MM` slice `iso_string[11:16]` of the ISO-8601 rendering of a
UTC timestamp, computed from the epoch seconds. -/
def hhmm (t : Int) : String :=
  pad2 ((Int.fdiv t 3600).emod 24).toNat ++ ":" ++ pad2 ((Int.fdiv t 60).emod 60).toNat

/-- Whether the first character list is an initial segment of the
second (helper for Python substring containment). -/
def charsLead : List Char → List Char → Bool
  | [], _ => true
  | _ :: _, [] => false
  | a :: as, b :: bs => a == b && charsLead as bs

/-- Whether the first character list occurs contiguously inside the
second. -/
def charsIn (n : List Char) : List Char → Bool
  | [] => charsLead n []
  | c :: t => charsLead n (c :: t) || charsIn n t

/-- Python `needle in haystack` on strings: substring containment. -/
def strIn (needle haystack : String) : Bool :=
  charsIn needle.data haystack.data

/-- `create_system_alert` (src/scheduler.py lines 24-35): build the
alert document and `add` it to the `systemAlerts` collection.  The
Python keyword defaults (`severity="medium"`, `category="generic"`,
`site_id=None`) are passed explicitly at every call site below.  `now`
is the `datetime.utcnow()` taken inside the function. -/
def create_system_alert (st : Store) (now : Int) (agencyId title message severity category : String) (siteId : Option String) : Store :=
  { st with systemAlerts := st.systemAlerts ++
      [{ agencyId := agencyId, title := title, message := message,
         severity := severity, category := category, siteId := siteId,
         timestamp := now, read := false }] }

/-- The alert message built by `check_grace_violations`: it names the
employee and the `HH:MM` of the shift start, and does not contain the
shift id. -/
def graceMsg (empName : String) (shiftStart : Int) : String :=
  "Employee " ++ empName ++ " did not clock in for their shift starting at " ++ hhmm shiftStart ++ "."

/-- Per-shift body of `check_grace_violations` (src/scheduler.py lines
58-92): skip when any attendance record references the shift (the query
has no `clockIn` filter), otherwise query recent same-category alerts
of the same agency and site inside the grace window and suppress when
one of their messages contains the shift id; otherwise resolve the
employee name (document miss falls back to the raw id; a present
document with no `name` field renders Python `None` as `"None"`) and
emit the alert. -/
def graceShiftStep (agencyId : String) (graceMinutes now : Int) (acc : Store) (sh : ShiftDoc) : Store :=
  if acc.attendance.any (fun r => r.shiftId == some sh.id && r.agencyId == agencyId) then acc
  else
    let recent := acc.systemAlerts.filter (fun a =>
      a.agencyId == agencyId && a.category == "late_clockin" && a.siteId == sh.siteId
        && decide (now - graceMinutes * 60 ≤ a.timestamp))
    if recent.any (fun a => strIn sh.id a.message) then acc
    else
      let empId := (sh.employeeId).getD ""
      let empName :=
        match acc.employees.find? (fun e2 => e2.id == empId) with
        | some e2 => (e2.name).getD "None"
        | none => empId
      create_system_alert acc now agencyId "Clock-In Missed" (graceMsg empName sh.shiftStart) "medium" "late_clockin" sh.siteId

/-- Per-agency body of `check_grace_violations` (src/scheduler.py lines
45-92): read the grace period (default 5, 0 disables), select the
shifts of the agency starting at or before `now - grace`, and process
each. -/
def graceAgencyStep (now : Int) (acc : Store) (s : AgencySettingsDoc) : Store :=
  let graceMinutes := (s.clockInGracePeriod).getD 5
  if graceMinutes == 0 then acc
  else
    let due := acc.shifts.filter (fun sh =>
      sh.agencyId == s.id && decide (sh.shiftStart ≤ now - graceMinutes * 60))
    due.foldl (graceShiftStep s.id graceMinutes now) acc

/-- `check_grace_violations` (src/scheduler.py lines 40-92): iterate the
agency settings documents, threading the store (alerts created for an
earlier shift are visible to later duplicate queries of the same run). -/
def check_grace_violations (st : Store) (now : Int) : Store :=
  st.agencySettings.foldl (graceAgencyStep now) st

/-- A store together with an injected transient fault: the `shifts`
query of `check_grace_violations` raises (timeout / store unavailable)
for the agencies in `shiftsQueryFault`.  The Python code installs no
exception handler, so such a raise propagates out of the evaluator. -/
structure FaultyStore where
  base : Store
  shiftsQueryFault : String → Bool

/-- Per-agency body of `check_grace_violations` when the shifts query
may raise: a raised fault propagates (no `try`/`except` in the code),
aborting the fold. -/
def graceAgencyStepF (fault : String → Bool) (now : Int) (acc : Except String Store) (s : AgencySettingsDoc) : Except String Store :=
  match acc with
  | .error msg => .error msg
  | .ok st =>
    if fault s.id then .error "store timeout" else .ok (graceAgencyStep now st s)

/-- `check_grace_violations` run against a store whose shifts query can
raise for some agencies: the raise aborts the whole sweep. -/
def check_grace_violationsF (fs : FaultyStore) (now : Int) : Except String Store :=
  fs.base.agencySettings.foldl (graceAgencyStepF fs.shiftsQueryFault now) (.ok fs.base)

/-- Rational subtraction written through `Rat.divInt` (the library
subtraction is irreducible, which would block kernel evaluation of
concrete runs); `qsub_eq` below shows it is ordinary subtraction. -/
def qsub (a b : ℚ) : ℚ :=
  Rat.divInt (a.num * (b.den : Int) - b.num * (a.den : Int)) ((a.den : Int) * (b.den : Int))

/-- Rational multiplication written through `Rat.divInt`; `qmul_eq`
below shows it is ordinary multiplication. -/
def qmul (a b : ℚ) : ℚ :=
  Rat.divInt (a.num * b.num) ((a.den : Int) * (b.den : Int))

/-- Rational division written through `Rat.divInt`; `qdiv_eq` below
shows it is ordinary division (with the `x / 0 = 0` convention). -/
def qdiv (a b : ℚ) : ℚ :=
  Rat.divInt (a.num * (b.den : Int)) ((a.den : Int) * b.num)

/-- The constant `1/2` as a reduced rational. -/
def oneHalf : ℚ := Rat.divInt 1 2

/-- Round-half-to-even of a rational, Python `round(x)` semantics. -/
def roundHalfEven (q : ℚ) : ℤ :=
  let f := Rat.floor q
  let r := qsub q (Rat.divInt f 1)
  if decide (r < oneHalf) then f
  else if decide (oneHalf < r) then f + 1
  else if f % 2 = 0 then f else f + 1

/-- Multiplication of a rational by the integer 100, through
`Rat.divInt`. -/
def qmul100 (q : ℚ) : ℚ :=
  Rat.divInt (q.num * 100) (q.den : Int)

/-- Python `round(x, 2)`: round to two decimal places,
half-to-even. -/
def round2 (q : ℚ) : ℚ :=
  Rat.divInt (roundHalfEven (qmul100 q)) 100

/-- The worked-hours computation of `auto_clockout_expired_shifts`
(src/scheduler.py line 116): `(now - clockIn).total_seconds() / 3600`,
rounded to two decimals. -/
def hoursWorkedCalc (now clockIn : Int) : ℚ :=
  round2 (Rat.divInt (now - clockIn) 3600)

/-- The Firestore `update` on one document of the `attendance`
collection performed by `auto_clockout_expired_shifts` (src/scheduler.py
lines 117-121): the document whose id matches gets `clockOut = now`,
the computed `hoursWorked`, and `updatedAt = now`. -/
def updAttDoc (rid : String) (now : Int) (hq : ℚ) (a : AttendanceDoc) : AttendanceDoc :=
  if a.id == rid then { a with clockOut := some now, hoursWorked := some hq, updatedAt := some now }
  else a

/-- The Firestore `update` on one document of the `shifts` collection
performed by `auto_clockout_expired_shifts` (src/scheduler.py lines
122-125): the document whose id matches gets `status = "completed"`
and `updatedAt = now`. -/
def updShiftDoc (sid : String) (now : Int) (sh : ShiftDoc) : ShiftDoc :=
  if sh.id == sid then { sh with status := "completed", updatedAt := some now }
  else sh

/-- Per-record body of `auto_clockout_expired_shifts` (src/scheduler.py
lines 105-131): skip when the agency is not enabled or the record has
no (truthy) `shiftId`; fetch the shift, skip when missing; when `now`
is past the shift end, compute the worked hours (indexing a missing or
null `clockIn` raises), close the attendance record, mark the shift
completed, and emit the `auto_clockout` alert. -/
def autoStep (enabled : List String) (now : Int) (acc : Except String Store) (att : AttendanceDoc) : Except String Store :=
  match acc with
  | .error msg => .error msg
  | .ok st =>
    if !(enabled.contains att.agencyId) || optStrFalsy att.shiftId then .ok st
    else
      match st.shifts.find? (fun sh => sh.id == (att.shiftId).getD "") with
      | none => .ok st
      | some sh =>
        if sh.shiftEnd < now then
          match att.clockIn with
          | none => .error "clockIn missing"
          | some ci =>
            let st1 : Store :=
              { st with
                attendance := st.attendance.map (updAttDoc att.id now (hoursWorkedCalc now ci)),
                shifts := st.shifts.map (updShiftDoc ((att.shiftId).getD "") now) }
            .ok (create_system_alert st1 now att.agencyId "Auto Clock-Out Executed"
              ("Employee " ++ att.userId ++ " auto clocked out at shift end.") "medium" "auto_clockout" none)
        else .ok st

/-- `auto_clockout_expired_shifts` (src/scheduler.py lines 99-131):
collect the agencies with `autoClockOut` enabled, snapshot the open
attendance records (`clockOut == null`), and process each against the
threaded store. -/
def auto_clockout_expired_shifts (st : Store) (now : Int) : Except String Store :=
  let enabled := (st.agencySettings.filter (fun s => (s.autoClockOut).getD false)).map (fun s => s.id)
  let records := st.attendance.filter (fun a => a.clockOut == none)
  records.foldl (autoStep enabled now) (.ok st)

/-- The frequency-to-minutes map of `send_activity_reminders`
(src/scheduler.py line 147): `{"30min": 30, "1hr": 60, "2hr": 120}`
with default 30. -/
def freqInterval (freq : String) : Int :=
  if freq == "30min" then 30
  else if freq == "1hr" then 60
  else if freq == "2hr" then 120
  else 30

/-- Per-employee body of `send_activity_reminders` (src/scheduler.py
lines 150-162): skip when `lastKnownLocation.updatedAt` is unknown;
alert when the elapsed time strictly exceeds the threshold. -/
def activityEmpStep (agencyId freq : String) (interval now : Int) (acc : Store) (e : EmployeeDoc) : Store :=
  match e.lastKnownLocation with
  | none => acc
  | some loc =>
    match loc.updatedAt with
    | none => acc
    | some last =>
      if interval * 60 < now - last then
        create_system_alert acc now agencyId "Employee Inactivity"
          ((e.name).getD "An employee" ++ " inactive for " ++ freq ++ ".") "medium" "inactivity" none
      else acc

/-- Per-agency body of `send_activity_reminders` (src/scheduler.py
lines 140-162): `OFF` skips the agency entirely; otherwise resolve the
minute threshold and process the employees of the agency. -/
def activityAgencyStep (now : Int) (acc : Store) (s : AgencySettingsDoc) : Store :=
  let freq := (s.activityReportFrequency).getD "30min"
  if freq == "OFF" then acc
  else
    let interval := freqInterval freq
    let emps := acc.employees.filter (fun e => e.agencyId == some s.id)
    emps.foldl (activityEmpStep s.id freq interval now) acc

/-- `send_activity_reminders` (src/scheduler.py lines 136-162). -/
def send_activity_reminders (st : Store) (now : Int) : Store :=
  st.agencySettings.foldl (activityAgencyStep now) st

/-- Whether point `p` lies on the closed segment from `a` to `b`
(collinear and inside the bounding box); exact rational arithmetic. -/
def onSegB (a b p : ℚ × ℚ) : Bool :=
  (qsub (qmul (qsub b.1 a.1) (qsub p.2 a.2)) (qmul (qsub b.2 a.2) (qsub p.1 a.1)) == 0)
    && decide (min a.1 b.1 ≤ p.1) && decide (p.1 ≤ max a.1 b.1)
    && decide (min a.2 b.2 ≤ p.2) && decide (p.2 ≤ max a.2 b.2)

/-- The edge list of a polygon given by its vertex ring: consecutive
pairs, closing back to the first vertex. -/
def edgesOf (l : List (ℚ × ℚ)) : List ((ℚ × ℚ) × (ℚ × ℚ)) :=
  match l with
  | [] => []
  | h :: t => (h :: t).zip (t ++ [h])

/-- Whether the point lies on the polygon boundary (on some edge). -/
def onBoundaryB (poly : List (ℚ × ℚ)) (p : ℚ × ℚ) : Bool :=
  (edgesOf poly).any (fun e2 => onSegB e2.1 e2.2 p)

/-- Whether the horizontal ray to the right of `p` crosses the edge
(standard even-odd crossing test). -/
def crossesRay (p : ℚ × ℚ) (e2 : (ℚ × ℚ) × (ℚ × ℚ)) : Bool :=
  (decide (p.2 < e2.1.2) != decide (p.2 < e2.2.2))
    && decide (qsub p.1 e2.1.1 < qdiv (qmul (qsub p.2 e2.1.2) (qsub e2.2.1 e2.1.1)) (qsub e2.2.2 e2.1.2))

/-- Whether the crossing count of the rightward ray is odd. -/
def oddCrossings (poly : List (ℚ × ℚ)) (p : ℚ × ℚ) : Bool :=
  ((edgesOf poly).filter (crossesRay p)).length % 2 == 1

/-- Models the shapely test `polygon.contains(point)` used at
src/scheduler.py line 189: true exactly when the point lies in the
interior of the simple polygon.  Per the library semantics, `contains`
is false for points on the boundary (edges and vertices). -/
def polyContainsPt (poly : List (ℚ × ℚ)) (p : ℚ × ℚ) : Bool :=
  !(onBoundaryB poly p) && oddCrossings poly p

/-- The `geofenceTriggerDelay` resolution of `detect_geofence_leaves`
(src/scheduler.py lines 192-194): the agency settings document, default
10 when the document or the field is missing. -/
def triggerDelayFor (st : Store) (agencyId : String) : Int :=
  match st.agencySettings.find? (fun s2 => s2.id == agencyId) with
  | some s2 => (s2.geofenceTriggerDelay).getD 10
  | none => 10

/-- Per-employee body of `detect_geofence_leaves` (src/scheduler.py
lines 171-204): skip when the assigned site or a coordinate is falsy
(missing, empty, or zero), when the site document is missing, when the
polygon has fewer than 3 vertices, or when the point is contained in
the polygon; otherwise resolve the trigger delay (fetching the settings
document of a missing `agencyId` raises) and alert exactly when the
location update is stale by more than the delay. -/
def geofenceCheckEmp (st : Store) (now : Int) (e : EmployeeDoc) : Except String (Option Alert) :=
  match e.lastKnownLocation with
  | none => .ok none
  | some loc =>
    if optStrFalsy e.assignedsiteID || optRatFalsy loc.lat || optRatFalsy loc.lng then .ok none
    else
      match st.sites.find? (fun s2 => s2.id == (e.assignedsiteID).getD "") with
      | none => .ok none
      | some site =>
        if site.coordinates.length < 3 then .ok none
        else
          let p : ℚ × ℚ := ((loc.lng).getD 0, (loc.lat).getD 0)
          let poly := site.coordinates.map (fun c => (c.lng, c.lat))
          if polyContainsPt poly p then .ok none
          else
            match e.agencyId with
            | none => .error "agencyId missing"
            | some aid =>
              let leaveTime := triggerDelayFor st aid
              match loc.updatedAt with
              | none => .error "updatedAt missing"
              | some u =>
                if leaveTime * 60 < now - u then
                  .ok (some
                    { agencyId := aid, title := "Geofence Violation",
                      message := (e.name).getD "None" ++ " left site fence for over " ++ toString leaveTime ++ " min.",
                      severity := "medium", category := "geofence_leave",
                      siteId := e.assignedsiteID, timestamp := now, read := false })
                else .ok none

/-- `detect_geofence_leaves` (src/scheduler.py lines 167-204): process
every employee, adding each emitted alert to the store; a raise aborts
the sweep. -/
def detect_geofence_leaves (st : Store) (now : Int) : Except String Store :=
  st.employees.foldl (fun acc e =>
    match acc with
    | .error msg => .error msg
    | .ok s =>
      match geofenceCheckEmp s now e with
      | .error msg => .error msg
      | .ok none => .ok s
      | .ok (some a) => .ok { s with systemAlerts := s.systemAlerts ++ [a] }) (.ok st)

/-- The reminder-to-days map of `send_license_reminders`
(src/scheduler.py lines 216-217): `{"1week": 7, "2weeks": 14,
"1month": 30}` with default 7. -/
def licenseDays (reminder : String) : Int :=
  if reminder == "1week" then 7
  else if reminder == "2weeks" then 14
  else if reminder == "1month" then 30
  else 7

/-- Per-license body of `send_license_reminders` (src/scheduler.py
lines 220-231): skip licenses of other agencies or with a falsy expiry
date; alert exactly when `0 <= (expiry - now).days == days` (Python
chained comparison; `timedelta.days` is floor division by 86400). -/
def licenseStep (agencyId : String) (days now : Int) (acc : Store) (l : LicenseDoc) : Store :=
  if !(l.agencyId == some agencyId) then acc
  else
    match l.expiryDate with
    | none => acc
    | some expiry =>
      let db := Int.fdiv (expiry - now) 86400
      if decide (0 ≤ db) && db == days then
        create_system_alert acc now agencyId "License Expiry Reminder"
          ("Employee " ++ l.employeeId ++ "\x27s license expires in " ++ toString days ++ " days.")
          "medium" "license" none
      else acc

/-- Per-agency body of `send_license_reminders` (src/scheduler.py lines
213-231): resolve the day threshold and scan the whole `licenses`
collection. -/
def licenseAgencyStep (now : Int) (acc : Store) (s : AgencySettingsDoc) : Store :=
  let days := licenseDays ((s.licenseExpiryReminder).getD "1week")
  acc.licenses.foldl (licenseStep s.id days now) acc

/-- `send_license_reminders` (src/scheduler.py lines 209-231). -/
def send_license_reminders (st : Store) (now : Int) : Store :=
  st.agencySettings.foldl (licenseAgencyStep now) st

deriving instance DecidableEq for Except

/-! ### Concrete stores used by the witnesses and counterexamples -/

/-- A store with every collection empty. -/
def emptyStore : Store := ⟨[], [], [], [], [], [], []⟩

/-- Settings document with every field absent (all defaults apply). -/
def bareSettings (aid : String) : AgencySettingsDoc :=
  { id := aid, clockInGracePeriod := none, autoClockOut := none,
    activityReportFrequency := none, licenseExpiryReminder := none,
    geofenceTriggerDelay := none }

/-- The C1 store: one agency with a 5-minute grace period, one shift of
that agency starting 10 minutes before the evaluation time `1000000`,
no attendance records, and the shift employee on file.  The shift id
`s1` does not occur in the alert message the evaluator builds. -/
def g1Store : Store :=
  { emptyStore with
    agencySettings := [{ bareSettings "a1" with clockInGracePeriod := some 5 }],
    shifts := [{ id := "s1", agencyId := "a1", shiftStart := 999400, shiftEnd := 1028200,
                 siteId := some "siteA", employeeId := some "e1", status := "scheduled",
                 updatedAt := none }],
    employees := [{ id := "e1", agencyId := some "a1", name := some "John",
                    assignedsiteID := none, lastKnownLocation := none }] }

/-- The C8 store: two agencies; the shifts query of agency `a1` raises
a transient store fault; agency `a2` has a shift past its grace period
with no attendance and would be alerted on. -/
def fsC8 : FaultyStore :=
  { base :=
      { g1Store with
        agencySettings := [{ bareSettings "a1" with clockInGracePeriod := some 5 },
                           { bareSettings "a2" with clockInGracePeriod := some 5 }],
        shifts := [{ id := "s2", agencyId := "a2", shiftStart := 999400, shiftEnd := 1028200,
                     siteId := some "siteB", employeeId := some "e1", status := "scheduled",
                     updatedAt := none }] },
    shiftsQueryFault := fun a => a == "a1" }

/-- The C2 store: as `g1Store`, but the due shift has one attendance
record whose `clockIn` is null. -/
def stC2w : Store :=
  { g1Store with
    attendance := [{ id := "r1", shiftId := some "s1", agencyId := "a1", userId := "u1",
                     clockIn := none, clockOut := none, hoursWorked := none,
                     updatedAt := none }] }

/-- The C4 site: a triangle with vertices (lat, lng) = (1,1), (1,5),
(5,1). -/
def siteC4 : SiteDoc :=
  { id := "siteA", coordinates := [⟨1, 1⟩, ⟨1, 5⟩, ⟨5, 1⟩] }

/-- The C4 store: the triangle site and an agency with no
`geofenceTriggerDelay` (default 10 minutes applies). -/
def stC4 : Store :=
  { emptyStore with
    agencySettings := [bareSettings "a1"],
    sites := [siteC4] }

/-- The C4 employee: assigned to the triangle site and located exactly
on its vertex (1,1), with a location update 2000 seconds (more than 10
minutes) before the evaluation time `10000`. -/
def eC4 : EmployeeDoc :=
  { id := "e1", agencyId := some "a1", name := some "Ana", assignedsiteID := some "siteA",
    lastKnownLocation := some { lat := some 1, lng := some 1, updatedAt := some 8000 } }

/-- The alert the C4 run emits. -/
def aC4 : Alert :=
  { agencyId := "a1", title := "Geofence Violation",
    message := "Ana left site fence for over 10 min.", severity := "medium",
    category := "geofence_leave", siteId := some "siteA", timestamp := 10000, read := false }

/-- The C6 store: an agency with `autoClockOut = true`, a shift ending
at 17:00 (61200 seconds into the epoch day), and an open attendance
record clocked in at 09:00 (32400). -/
def st6 : Store :=
  { emptyStore with
    agencySettings := [{ bareSettings "a1" with autoClockOut := some true }],
    shifts := [{ id := "s1", agencyId := "a1", shiftStart := 32400, shiftEnd := 61200,
                 siteId := none, employeeId := none, status := "scheduled", updatedAt := none }],
    attendance := [{ id := "r1", shiftId := some "s1", agencyId := "a1", userId := "u1",
                     clockIn := some 32400, clockOut := none, hoursWorked := none,
                     updatedAt := none }] }

/-- The C6 result store: the attendance record closed at 17:05 (61500)
with 8.08 worked hours, the shift completed, and exactly one
`auto_clockout` alert. -/
def s6c : Store :=
  { st6 with
    shifts := [{ id := "s1", agencyId := "a1", shiftStart := 32400, shiftEnd := 61200,
                 siteId := none, employeeId := none, status := "completed",
                 updatedAt := some 61500 }],
    attendance := [{ id := "r1", shiftId := some "s1", agencyId := "a1", userId := "u1",
                     clockIn := some 32400, clockOut := some 61500,
                     hoursWorked := some (Rat.divInt 202 25), updatedAt := some 61500 }],
    systemAlerts := [{ agencyId := "a1", title := "Auto Clock-Out Executed",
                       message := "Employee u1 auto clocked out at shift end.",
                       severity := "medium", category := "auto_clockout", siteId := none,
                       timestamp := 61500, read := false }] }

/-- The employee of the C10 witness: assigned to a site, located on the
equator (`lat = 0`), with an arbitrarily stale update time. -/
def eC10w : EmployeeDoc :=
  { id := "e1", agencyId := some "a1", name := some "Eve", assignedsiteID := some "siteA",
    lastKnownLocation := some { lat := some 0, lng := some 3, updatedAt := some 0 } }

/-- The employee of the C7 witness: last seen 31 minutes before the
evaluation time `1860`. -/
def eC7w : EmployeeDoc :=
  { id := "e1", agencyId := some "a1", name := some "Bo", assignedsiteID := none,
    lastKnownLocation := some { lat := none, lng := none, updatedAt := some 0 } }

/-- The license of the C5 witness: expires exactly 7 days after the
evaluation time 0, belonging to agency `a1` whose settings document has
no `licenseExpiryReminder` (so the default `1week`, 7 days, applies). -/
def lC5w : LicenseDoc :=
  { id := "l1", agencyId := some "a1", expiryDate := some 604800, employeeId := "u1" }

/-- The C3 witness store: one agency with `autoClockOut = true`, one
shift over at time 1000, one open attendance record clocked in at 0. -/
def st0c : Store :=
  { emptyStore with
    agencySettings := [{ bareSettings "a1" with autoClockOut := some true }],
    shifts := [{ id := "s1", agencyId := "a1", shiftStart := 0, shiftEnd := 1000,
                 siteId := none, employeeId := none, status := "scheduled", updatedAt := none }],
    attendance := [{ id := "r1", shiftId := some "s1", agencyId := "a1", userId := "u1",
                     clockIn := some 0, clockOut := none, hoursWorked := none,
                     updatedAt := none }] }

/-- The result of the first run on `st0c` at time 9000: the record is
closed with 2.5 worked hours, the shift completed, one alert added. -/
def s1c : Store :=
  { st0c with
    shifts := [{ id := "s1", agencyId := "a1", shiftStart := 0, shiftEnd := 1000,
                 siteId := none, employeeId := none, status := "completed",
                 updatedAt := some 9000 }],
    attendance := [{ id := "r1", shiftId := some "s1", agencyId := "a1", userId := "u1",
                     clockIn := some 0, clockOut := some 9000,
                     hoursWorked := some (Rat.divInt 5 2), updatedAt := some 9000 }],
    systemAlerts := [{ agencyId := "a1", title := "Auto Clock-Out Executed",
                       message := "Employee u1 auto clocked out at shift end.",
                       severity := "medium", category := "auto_clockout", siteId := none,
                       timestamp := 9000, read := false }] }

/-- The cumulative effect of the attendance updates performed so far in
one run: the first (most recent) pair of `ps` whose key matches the
document id carries the recorded worked hours. -/
def closeAtt (now : Int) (ps : List (String × ℚ)) (a : AttendanceDoc) : AttendanceDoc :=
  match ps.find? (fun p => p.1 == a.id) with
  | some p => { a with clockOut := some now, hoursWorked := some p.2, updatedAt := some now }
  | none => a

/-- The cumulative effect of the shift updates performed so far in one
run. -/
def completeShift (now : Int) (sids : List String) (sh : ShiftDoc) : ShiftDoc :=
  if sids.contains sh.id then { sh with status := "completed", updatedAt := some now }
  else sh

/-- The skip condition of one `autoStep` iteration, relative to a
shifts list: agency not enabled, falsy `shiftId`, linked shift missing,
or shift not yet over. -/
def autoSkipB (shifts : List ShiftDoc) (enabled : List String) (now : Int) (att : AttendanceDoc) : Bool :=
  !(enabled.contains att.agencyId) || optStrFalsy att.shiftId ||
    (match shifts.find? (fun sh => sh.id == (att.shiftId).getD "") with
     | none => true
     | some sh => !(decide (sh.shiftEnd < now)))

/-! ### General helper lemmas -/

/-- A fold whose step fixes the accumulator on every list element
returns the accumulator. -/
theorem foldl_fixed {α β : Type} (f : β → α → β) (b : β) :
    ∀ (l : List α), (∀ x ∈ l, f b x = b) → l.foldl f b = b
  | [], _ => rfl
  | x :: xs, h => by
    rw [List.foldl_cons, h x (by simp)]
    exact foldl_fixed f b xs (fun y hy => h y (by simp [hy]))

/-- `qsub` is rational subtraction. -/
theorem qsub_eq (a b : ℚ) : qsub a b = a - b := by
  rw [qsub, Rat.divInt_eq_div]
  push_cast
  conv_rhs => rw [← Rat.num_div_den a, ← Rat.num_div_den b]
  have ha : ((a.den : ℚ)) ≠ 0 := Nat.cast_ne_zero.mpr a.den_nz
  have hb : ((b.den : ℚ)) ≠ 0 := Nat.cast_ne_zero.mpr b.den_nz
  field_simp
  ring

/-- `qmul` is rational multiplication. -/
theorem qmul_eq (a b : ℚ) : qmul a b = a * b := by
  rw [qmul, Rat.divInt_eq_div]
  push_cast
  conv_rhs => rw [← Rat.num_div_den a, ← Rat.num_div_den b]
  have ha : ((a.den : ℚ)) ≠ 0 := Nat.cast_ne_zero.mpr a.den_nz
  have hb : ((b.den : ℚ)) ≠ 0 := Nat.cast_ne_zero.mpr b.den_nz
  field_simp

/-- `qdiv` is rational division (`x / 0 = 0` convention on both
sides). -/
theorem qdiv_eq (a b : ℚ) : qdiv a b = a / b := by
  rcases eq_or_ne b 0 with rfl | hb
  · have h0 : (0 : ℚ).num = 0 := rfl
    simp [qdiv, h0]
  · have hbn : ((b.num : ℚ)) ≠ 0 := by
      simpa [Rat.num_eq_zero] using hb
    rw [qdiv, Rat.divInt_eq_div]
    push_cast
    conv_rhs => rw [← Rat.num_div_den a, ← Rat.num_div_den b]
    have ha : ((a.den : ℚ)) ≠ 0 := Nat.cast_ne_zero.mpr a.den_nz
    have hb2 : ((b.den : ℚ)) ≠ 0 := Nat.cast_ne_zero.mpr b.den_nz
    field_simp

/-- A point is on any closed segment that starts at it. -/
theorem onSegB_start (a b : ℚ × ℚ) : onSegB a b a = true := by
  unfold onSegB
  have h1 : qsub (qmul (qsub b.1 a.1) (qsub a.2 a.2)) (qmul (qsub b.2 a.2) (qsub a.1 a.1)) = 0 := by
    simp only [qsub_eq, qmul_eq]
    ring
  simp [h1, min_le_left, le_max_left]

/-- If `p` is a member of `l` and `m` is at least as long, `p` is the
first component of some pair of `l.zip m`. -/
theorem mem_zip_left {α β : Type} (p : α) :
    ∀ (l : List α) (m : List β), p ∈ l → l.length ≤ m.length → ∃ q, (p, q) ∈ l.zip m
  | [], _, h, _ => absurd h (List.not_mem_nil p)
  | _ :: _, [], _, hlen => by simp at hlen
  | a :: l, b :: m, h, hlen => by
    rcases List.mem_cons.mp h with rfl | h2
    · exact ⟨b, by simp⟩
    · obtain ⟨q, hq⟩ := mem_zip_left p l m h2 (by simpa using hlen)
      exact ⟨q, by simp [hq]⟩

/-- Every vertex of a polygon lies on its boundary: it is the start
point of one of the edges. -/
theorem vertex_onBoundary (poly : List (ℚ × ℚ)) (p : ℚ × ℚ) (hp : p ∈ poly) :
    onBoundaryB poly p = true := by
  match poly, hp with
  | h :: t, hp =>
    unfold onBoundaryB edgesOf
    obtain ⟨q, hq⟩ := mem_zip_left p (h :: t) (t ++ [h]) hp (by simp)
    exact List.any_eq_true.mpr ⟨(p, q), hq, onSegB_start p q⟩

/-- A vertex of a polygon is never in its interior: the modelled
shapely `contains` is false there. -/
theorem vertex_not_contains (poly : List (ℚ × ℚ)) (p : ℚ × ℚ) (hp : p ∈ poly) :
    polyContainsPt poly p = false := by
  unfold polyContainsPt
  rw [vertex_onBoundary poly p hp]
  simp

/-! ### C9: alert emitter schema -/

/-- C9: every alert document persisted by `create_system_alert` (on
behalf of any of the five evaluators) is exactly the eight-field
`Alert` record `agencyId, title, message, severity, category, siteId,
timestamp, read` with `read = false` and `timestamp` the current time;
it is appended to `systemAlerts`, the existing alerts are untouched
(the old list is the unchanged initial segment of the new one), and no
other collection is modified. -/
theorem create_system_alert_schema (st : Store) (now : Int) (aid t m sev cat : String) (sid : Option String) :
    create_system_alert st now aid t m sev cat sid =
      { st with systemAlerts := st.systemAlerts ++
          [{ agencyId := aid, title := t, message := m, severity := sev,
             category := cat, siteId := sid, timestamp := now, read := false }] }
    ∧ (create_system_alert st now aid t m sev cat sid).systemAlerts.take st.systemAlerts.length
        = st.systemAlerts
    ∧ (create_system_alert st now aid t m sev cat sid).attendance = st.attendance
    ∧ (create_system_alert st now aid t m sev cat sid).shifts = st.shifts
    ∧ (create_system_alert st now aid t m sev cat sid).agencySettings = st.agencySettings
    ∧ (create_system_alert st now aid t m sev cat sid).employees = st.employees
    ∧ (create_system_alert st now aid t m sev cat sid).sites = st.sites
    ∧ (create_system_alert st now aid t m sev cat sid).licenses = st.licenses := by
  refine ⟨rfl, ?_, rfl, rfl, rfl, rfl, rfl, rfl⟩
  show (st.systemAlerts ++ _).take st.systemAlerts.length = st.systemAlerts
  simp

/-! ### C10: zero coordinates are falsy in geofence detection -/

/-- C10: an employee whose `lastKnownLocation` has `lat = 0` or
`lng = 0` (Python falsy) is skipped by the geofence sweep: no
`geofence_leave` alert is emitted for them, whatever their position or
the staleness of the location. -/
theorem geofence_zero_coordinate_skipped (st : Store) (now : Int) (e : EmployeeDoc) (loc : LocationDoc)
    (hloc : e.lastKnownLocation = some loc)
    (h0 : loc.lat = some 0 ∨ loc.lng = some 0) :
    geofenceCheckEmp st now e = Except.ok none := by
  unfold geofenceCheckEmp
  rcases h0 with h | h <;> simp [hloc, h, optRatFalsy]

/-- Witness for C10 at a concrete employee. -/
theorem geofence_zero_coordinate_skipped_witness :
    geofenceCheckEmp emptyStore 1000000 eC10w = Except.ok none :=
  geofence_zero_coordinate_skipped emptyStore 1000000 eC10w
    { lat := some 0, lng := some 3, updatedAt := some 0 } rfl (Or.inl rfl)

/-! ### C7: inactivity reminder thresholds -/

/-- C7: `send_activity_reminders` skips an agency entirely when its
`activityReportFrequency` is `OFF` (its per-agency step changes
nothing, so no inactivity alert for any of its employees, regardless of
staleness); the frequency map is 30/60/120 minutes with 30 for any
unrecognized value; and an employee with a known
`lastKnownLocation.updatedAt` is alerted on exactly when the elapsed
time strictly exceeds the threshold in seconds. -/
theorem activity_reminder_thresholds :
    (∀ (now : Int) (acc : Store) (s : AgencySettingsDoc),
        s.activityReportFrequency = some "OFF" → activityAgencyStep now acc s = acc)
    ∧ freqInterval "30min" = 30 ∧ freqInterval "1hr" = 60 ∧ freqInterval "2hr" = 120
    ∧ (∀ f : String, f ≠ "30min" → f ≠ "1hr" → f ≠ "2hr" → freqInterval f = 30)
    ∧ (∀ (aid freq : String) (interval now : Int) (acc : Store) (e : EmployeeDoc) (loc : LocationDoc) (u : Int),
        e.lastKnownLocation = some loc → loc.updatedAt = some u →
        (activityEmpStep aid freq interval now acc e).systemAlerts.length
          = acc.systemAlerts.length + (if interval * 60 < now - u then 1 else 0)) := by
  refine ⟨?_, rfl, rfl, rfl, ?_, ?_⟩
  · intro now acc s h
    unfold activityAgencyStep
    simp [h]
  · intro f h1 h2 h3
    unfold freqInterval
    simp [h1, h2, h3]
  · intro aid freq interval now acc e loc u hloc hu
    unfold activityEmpStep
    simp only [hloc, hu]
    split
    · next hlt => simp [create_system_alert, hlt]
    · next hge => simp [hge]

/-- Witness for C7: an `OFF` agency contributes nothing, and a 31-minute
stale employee fires under the 30-minute threshold. -/
theorem activity_reminder_thresholds_witness :
    activityAgencyStep 0 emptyStore { bareSettings "a1" with activityReportFrequency := some "OFF" } = emptyStore
    ∧ (activityEmpStep "a1" "30min" 30 1860 emptyStore eC7w).systemAlerts.length
        = emptyStore.systemAlerts.length + 1 := by
  constructor
  · exact activity_reminder_thresholds.1 0 emptyStore _ rfl
  · have h := activity_reminder_thresholds.2.2.2.2.2 "a1" "30min" 30 1860 emptyStore eC7w
      { lat := none, lng := none, updatedAt := some 0 } 0 rfl rfl
    rw [h]
    decide

/-! ### C5: license expiry exact-day match -/

/-- C5: per agency the reminder threshold is 7/14/30 days (default 7,
always positive, so the `0 <=` guard of the chained comparison is
implied); a license of the agency with a known expiry date produces a
`license` alert exactly when `(expiryDate - now).days` (floor division
by 86400) equals the threshold; expiry at exactly `now + 7 days` gives
day count 7 (fires at threshold 7) while `now + 6` and `now + 8` days
give 6 and 8 (do not fire at threshold 7). -/
theorem license_exact_day_match :
    (∀ r : String, 0 < licenseDays r)
    ∧ (∀ (now : Int) (acc : Store) (s : AgencySettingsDoc) (l : LicenseDoc) (expiry : Int),
        l.agencyId = some s.id → l.expiryDate = some expiry →
        (licenseStep s.id (licenseDays ((s.licenseExpiryReminder).getD "1week")) now acc l).systemAlerts
          = acc.systemAlerts ++
            (if Int.fdiv (expiry - now) 86400 = licenseDays ((s.licenseExpiryReminder).getD "1week") then
              [{ agencyId := s.id, title := "License Expiry Reminder",
                 message := "Employee " ++ l.employeeId ++ "\x27s license expires in "
                   ++ toString (licenseDays ((s.licenseExpiryReminder).getD "1week")) ++ " days.",
                 severity := "medium", category := "license", siteId := none,
                 timestamp := now, read := false }]
             else []))
    ∧ (∀ now : Int, Int.fdiv (now + 7 * 86400 - now) 86400 = 7
        ∧ Int.fdiv (now + 6 * 86400 - now) 86400 = 6
        ∧ Int.fdiv (now + 8 * 86400 - now) 86400 = 8) := by
  have hpos : ∀ r : String, 0 < licenseDays r := by
    intro r
    unfold licenseDays
    split_ifs <;> norm_num
  refine ⟨hpos, ?_, ?_⟩
  · intro now acc s l expiry hag hexp
    unfold licenseStep
    simp only [hag, hexp, beq_self_eq_true, Bool.not_true, Bool.false_eq_true, if_false]
    by_cases hd : Int.fdiv (expiry - now) 86400 = licenseDays ((s.licenseExpiryReminder).getD "1week")
    · have h1 : (0 : Int) ≤ licenseDays ((s.licenseExpiryReminder).getD "1week") :=
        le_of_lt (hpos _)
      simp [hd, h1, create_system_alert]
    · simp [hd]
  · intro now
    have h7 : now + 7 * 86400 - now = 604800 := by omega
    have h6 : now + 6 * 86400 - now = 518400 := by omega
    have h8 : now + 8 * 86400 - now = 691200 := by omega
    rw [h7, h6, h8]
    refine ⟨by decide, by decide, by decide⟩

/-- Witness for C5: the 7-days-out license fires exactly one `license`
alert under the default threshold. -/
theorem license_exact_day_match_witness :
    (licenseStep (bareSettings "a1").id (licenseDays (((bareSettings "a1").licenseExpiryReminder).getD "1week")) 0 emptyStore lC5w).systemAlerts
      = [{ agencyId := "a1", title := "License Expiry Reminder",
           message := "Employee u1\x27s license expires in 7 days.",
           severity := "medium", category := "license", siteId := none,
           timestamp := 0, read := false }] := by
  have h := license_exact_day_match.2.1 0 emptyStore (bareSettings "a1") lC5w 604800 rfl rfl
  rw [h]
  decide

/-! ### C1: grace-violation duplicate suppression is ineffective -/

/-- C1 failing run: two runs of `check_grace_violations` at the same
instant (so the first alert is inside the grace window of the second
run and is returned by its duplicate query) emit two `late_clockin`
alerts for the same shift.  The suppression test asks whether a recent
alert message contains the shift id, but the message built at emission
names only the employee and the shift start time, so the test never
matches. -/
theorem grace_second_run_duplicates :
    ((check_grace_violations (check_grace_violations g1Store 1000000) 1000000).systemAlerts.filter
        (fun a => a.category == "late_clockin")).length = 2 := by decide

/-! ### C8: a store fault aborts the whole sweep -/

/-- C8 failing run: with the fault on the first agency the evaluator
run aborts with the raised error and the second agency is never
processed (no alert at all), whereas the identical fault-free store
yields the alert for the second agency.  The code has no handler, so
the claimed log-and-continue behavior does not occur. -/
theorem grace_store_fault_aborts_sweep :
    check_grace_violationsF fsC8 1000000 = Except.error "store timeout"
    ∧ ((check_grace_violations fsC8.base 1000000).systemAlerts.filter
        (fun a => a.agencyId == "a2")).length = 1 := by
  exact ⟨by decide, by decide⟩

/-! ### C2: any attendance record suppresses a grace alert -/

/-- C2 counterexample: the claim says a shift whose only attendance
record has `clockIn` null is still alerted on; on the code the
attendance query has no `clockIn` filter, the record suppresses the
shift, and no alert is emitted (`stC2w` has a shift of agency `a1` past
its 5-minute grace at time `1000000` and only a null-`clockIn`
attendance record). -/
theorem grace_null_clockin_not_alerted :
    (check_grace_violations stC2w 1000000).systemAlerts.length = 0 := by decide

/-- C2 (amended): `check_grace_violations` treats a shift as already
handled whenever any matching attendance record exists, regardless of
its `clockIn` (null or absent included): if every due shift of every
agency has some matching attendance record, the run changes nothing
and emits nothing. -/
theorem grace_any_attendance_suppresses (st : Store) (now : Int)
    (H : ∀ s ∈ st.agencySettings, ∀ sh ∈ st.shifts,
      sh.agencyId = s.id →
      sh.shiftStart ≤ now - ((s.clockInGracePeriod).getD 5) * 60 →
      ∃ r ∈ st.attendance, r.shiftId = some sh.id ∧ r.agencyId = s.id) :
    check_grace_violations st now = st := by
  unfold check_grace_violations
  apply foldl_fixed
  intro s hs
  unfold graceAgencyStep
  by_cases hz : (((s.clockInGracePeriod).getD 5) == 0) = true
  · simp [hz]
  · simp only [hz, Bool.false_eq_true, if_false]
    apply foldl_fixed
    intro sh hsh
    obtain ⟨hmem, hpred⟩ := List.mem_filter.mp hsh
    obtain ⟨hag, hle⟩ := Bool.and_eq_true_iff.mp hpred
    have hag2 : sh.agencyId = s.id := by simpa using hag
    have hle2 : sh.shiftStart ≤ now - ((s.clockInGracePeriod).getD 5) * 60 := by
      simpa using hle
    obtain ⟨r, hr, h1, h2⟩ := H s hs sh hmem hag2 hle2
    have hany : st.attendance.any
        (fun r2 => r2.shiftId == some sh.id && r2.agencyId == s.id) = true :=
      List.any_eq_true.mpr ⟨r, hr, by simp [h1, h2]⟩
    unfold graceShiftStep
    simp [hany]

/-- Witness for the amended C2 at the concrete store: the run is a
no-op even though the only attendance record has `clockIn` null. -/
theorem grace_any_attendance_suppresses_witness :
    check_grace_violations stC2w 1000000 = stC2w :=
  grace_any_attendance_suppresses stC2w 1000000 (by decide)

/-! ### C4: a polygon vertex is outside under shapely contains -/

/-- C4 counterexample: the claim says a point exactly on a polygon
vertex is treated as inside and no alert is emitted regardless of
staleness; on the code (shapely `contains` excludes the boundary) the
vertex point is outside, and with a stale location a `geofence_leave`
alert is emitted. -/
theorem geofence_vertex_alert_emitted :
    geofenceCheckEmp stC4 10000 eC4 = Except.ok (some aC4) := by decide

/-- C4 (amended): for an employee with an assigned site and a location
with both coordinates present and nonzero whose point lies exactly on
a vertex of the site polygon (at least 3 vertices), the point is
treated as outside (the modelled shapely `contains` is false on the
boundary) and a `geofence_leave` alert is emitted exactly when the
location update is stale by more than the agency trigger delay. -/
theorem geofence_vertex_outside_alert_iff_stale
    (st : Store) (now : Int) (e : EmployeeDoc) (loc : LocationDoc) (sid aid : String)
    (site : SiteDoc) (la ln : ℚ) (u : Int)
    (hloc : e.lastKnownLocation = some loc)
    (hsid : e.assignedsiteID = some sid) (hside : sid ≠ "")
    (hla : loc.lat = some la) (hla0 : la ≠ 0)
    (hln : loc.lng = some ln) (hln0 : ln ≠ 0)
    (hsite : st.sites.find? (fun s2 => s2.id == sid) = some site)
    (hlen : ¬ site.coordinates.length < 3)
    (hvtx : ∃ c ∈ site.coordinates, c.lng = ln ∧ c.lat = la)
    (haid : e.agencyId = some aid)
    (hu : loc.updatedAt = some u) :
    (∃ a, geofenceCheckEmp st now e = Except.ok (some a) ∧ a.category = "geofence_leave")
      ↔ (triggerDelayFor st aid) * 60 < now - u := by
  obtain ⟨c, hc, hclng, hclat⟩ := hvtx
  have hpoly : polyContainsPt (site.coordinates.map (fun c2 => (c2.lng, c2.lat))) (ln, la) = false :=
    vertex_not_contains _ _ (List.mem_map.mpr ⟨c, hc, by rw [hclng, hclat]⟩)
  unfold geofenceCheckEmp
  simp only [hloc, hsid, hla, hln, haid, hu, optStrFalsy, optRatFalsy, Option.getD_some]
  simp only [hsite]
  have hs : (sid == "") = false := by simp [hside]
  have h0a : (la == 0) = false := by simp [hla0]
  have h0b : (ln == 0) = false := by simp [hln0]
  simp only [hs, h0a, h0b, Bool.or_self, Bool.or_false, Bool.false_or, if_false,
    Bool.false_eq_true, hlen, hpoly]
  by_cases hst : (triggerDelayFor st aid) * 60 < now - u
  · simp [hst]
  · simp [hst]

/-- Witness for the amended C4 at the concrete store: the stale vertex
employee is alerted on. -/
theorem geofence_vertex_outside_alert_iff_stale_witness :
    ∃ a, geofenceCheckEmp stC4 10000 eC4 = Except.ok (some a) ∧ a.category = "geofence_leave" :=
  (geofence_vertex_outside_alert_iff_stale stC4 10000 eC4
      { lat := some 1, lng := some 1, updatedAt := some 8000 } "siteA" "a1" siteC4 1 1 8000
      rfl rfl (by decide) rfl (by decide) rfl (by decide) (by decide) (by decide)
      ⟨⟨1, 1⟩, by decide, rfl, rfl⟩ rfl rfl).mpr (by decide)

/-! ### C6: auto clock-out hours computation and 17:05 scenario -/

/-- C6: the worked-hours computation gives exactly 2.5 hours for a
2h30m span, and in the 09:00/17:00/17:05 scenario the run closes the
attendance record with `clockOut = 17:05` and `hoursWorked = 8.08`
(`202/25`), marks the shift `completed`, and emits exactly one
`auto_clockout` alert. -/
theorem auto_clockout_hours_scenario :
    (∀ T : Int, hoursWorkedCalc (T + 9000) T = 5/2)
    ∧ auto_clockout_expired_shifts st6 61500 = Except.ok s6c
    ∧ s6c.attendance.map (fun a => (a.clockOut, a.hoursWorked))
        = [(some 61500, some ((202 : ℚ)/25))]
    ∧ s6c.shifts.map (fun sh => sh.status) = ["completed"]
    ∧ (s6c.systemAlerts.filter (fun a => a.category == "auto_clockout")).length = 1 := by
  have hq : (Rat.divInt 202 25) = ((202 : ℚ)/25) := by
    rw [Rat.divInt_eq_div]
    norm_num
  refine ⟨?_, by decide, ?_, by decide, by decide⟩
  · intro T
    have h : T + 9000 - T = 9000 := by omega
    unfold hoursWorkedCalc
    rw [h]
    have h2 : round2 (Rat.divInt 9000 3600) = Rat.divInt 5 2 := by decide
    rw [h2, Rat.divInt_eq_div]
    norm_num
  · show ([{ id := "r1", shiftId := some "s1", agencyId := "a1", userId := "u1",
             clockIn := some 32400, clockOut := some 61500,
             hoursWorked := some (Rat.divInt 202 25),
             updatedAt := some 61500 }] : List AttendanceDoc).map
          (fun a => (a.clockOut, a.hoursWorked))
        = [(some 61500, some ((202 : ℚ)/25))]
    simp [hq]

/-! ### C3: auto clock-out is idempotent -/

/-- With an empty update list, `closeAtt` is the identity on a
collection. -/
theorem map_closeAtt_nil (now : Int) (l : List AttendanceDoc) :
    l.map (closeAtt now []) = l := by
  induction l with
  | nil => rfl
  | cons a t ih => simp [closeAtt, ih]

/-- With an empty update list, `completeShift` is the identity on a
collection. -/
theorem map_completeShift_nil (now : Int) (l : List ShiftDoc) :
    l.map (completeShift now []) = l := by
  induction l with
  | nil => rfl
  | cons a t ih => simp [completeShift, ih]

/-- `completeShift` preserves the document id. -/
theorem completeShift_id (now : Int) (sids : List String) (sh : ShiftDoc) :
    (completeShift now sids sh).id = sh.id := by
  unfold completeShift
  split <;> rfl

/-- `completeShift` preserves the shift end time. -/
theorem completeShift_shiftEnd (now : Int) (sids : List String) (sh : ShiftDoc) :
    (completeShift now sids sh).shiftEnd = sh.shiftEnd := by
  unfold completeShift
  split <;> rfl

/-- Finding a shift by id commutes with the cumulative shift update. -/
theorem find?_map_completeShift (now : Int) (sids : List String) (x : String) :
    ∀ l : List ShiftDoc,
      (l.map (completeShift now sids)).find? (fun sh => sh.id == x)
        = Option.map (completeShift now sids) (l.find? (fun sh => sh.id == x))
  | [] => rfl
  | sh :: t => by
    cases h : (sh.id == x) with
    | true =>
      have h1 : ((fun sh2 : ShiftDoc => sh2.id == x) (completeShift now sids sh)) = true := by
        simp only [completeShift_id]
        exact h
      have h2 : ((fun sh2 : ShiftDoc => sh2.id == x) sh) = true := h
      rw [List.map_cons,
        @List.find?_cons_of_pos ShiftDoc (fun sh2 => sh2.id == x) (completeShift now sids sh)
          (t.map (completeShift now sids)) h1,
        @List.find?_cons_of_pos ShiftDoc (fun sh2 => sh2.id == x) sh t h2]
      rfl
    | false =>
      have h1 : ¬ ((fun sh2 : ShiftDoc => sh2.id == x) (completeShift now sids sh)) = true := by
        simp only [completeShift_id]
        simp [h]
      have h2 : ¬ ((fun sh2 : ShiftDoc => sh2.id == x) sh) = true := by simp [h]
      rw [List.map_cons,
        @List.find?_cons_of_neg ShiftDoc (fun sh2 => sh2.id == x) (completeShift now sids sh)
          (t.map (completeShift now sids)) h1,
        @List.find?_cons_of_neg ShiftDoc (fun sh2 => sh2.id == x) sh t h2]
      exact find?_map_completeShift now sids x t

/-- The skip condition does not change when the shifts collection has
been rewritten by the cumulative shift update (ids and end times are
preserved). -/
theorem autoSkipB_map (now : Int) (sids : List String) (enabled : List String)
    (att : AttendanceDoc) (l : List ShiftDoc) :
    autoSkipB (l.map (completeShift now sids)) enabled now att
      = autoSkipB l enabled now att := by
  unfold autoSkipB
  rw [find?_map_completeShift]
  cases hf : l.find? (fun sh => sh.id == (att.shiftId).getD "") with
  | none => rfl
  | some sh => simp [completeShift_shiftEnd]

/-- Applying one attendance `update` after the cumulative update equals
the cumulative update with the new pair prepended. -/
theorem map_updAtt_closeAtt (now : Int) (rid : String) (hq : ℚ) (ps : List (String × ℚ)) (l : List AttendanceDoc) :
    (l.map (closeAtt now ps)).map (updAttDoc rid now hq)
      = l.map (closeAtt now ((rid, hq) :: ps)) := by
  rw [List.map_map]
  apply List.map_congr_left
  intro a _
  show updAttDoc rid now hq (closeAtt now ps a) = closeAtt now ((rid, hq) :: ps) a
  unfold updAttDoc closeAtt
  by_cases hid : (a.id == rid) = true
  · have hid2 : ((fun p : String × ℚ => p.1 == a.id) (rid, hq)) = true := by
      have : a.id = rid := by simpa using hid
      simp [this]
    rw [@List.find?_cons_of_pos (String × ℚ) (fun p => p.1 == a.id) (rid, hq) ps hid2]
    cases hf : ps.find? (fun p => p.1 == a.id) with
    | some p => simp [hf, hid]
    | none => simp [hf, hid]
  · have hid2 : ¬ ((fun p : String × ℚ => p.1 == a.id) (rid, hq)) = true := by
      have : ¬ a.id = rid := by simpa using hid
      simp [this]
      exact fun h2 => this h2.symm
    rw [@List.find?_cons_of_neg (String × ℚ) (fun p => p.1 == a.id) (rid, hq) ps hid2]
    cases hf : ps.find? (fun p => p.1 == a.id) with
    | some p => simp [hf, hid]
    | none => simp [hf, hid]

/-- Applying one shift `update` after the cumulative update equals the
cumulative update with the new id prepended. -/
theorem map_updShift_completeShift (now : Int) (sid : String) (sids : List String) (l : List ShiftDoc) :
    (l.map (completeShift now sids)).map (updShiftDoc sid now)
      = l.map (completeShift now (sid :: sids)) := by
  rw [List.map_map]
  apply List.map_congr_left
  intro sh _
  show updShiftDoc sid now (completeShift now sids sh) = completeShift now (sid :: sids) sh
  unfold updShiftDoc completeShift
  by_cases hin : (sids.contains sh.id) = true
  · have hmem : sh.id ∈ sids := by simpa using hin
    have hcons : ((sid :: sids).contains sh.id) = true := by simp [hmem]
    rw [if_pos hin, if_pos hcons]
    by_cases hid : ((({ sh with status := "completed", updatedAt := some now } : ShiftDoc).id == sid) = true)
    · rw [if_pos hid]
    · rw [if_neg hid]
  · rw [if_neg hin]
    by_cases hid : (sh.id == sid) = true
    · have hsid : sh.id = sid := by simpa using hid
      have hcons : ((sid :: sids).contains sh.id) = true := by simp [hsid]
      rw [if_pos hid, if_pos hcons]
    · have h1 : ¬ sh.id = sid := by simpa using hid
      have h2 : ¬ sh.id ∈ sids := fun hmem => hin (by simp [hmem])
      have hcons : ¬ (((sid :: sids).contains sh.id) = true) := by simp [h1, h2]
      rw [if_neg (by simp [hid]), if_neg hcons]

/-- A raised error propagates through the rest of the attendance
fold. -/
theorem foldl_autoStep_error (enabled : List String) (now : Int) (msg : String) :
    ∀ R : List AttendanceDoc,
      R.foldl (autoStep enabled now) (Except.error msg) = Except.error msg
  | [] => rfl
  | _ :: t => by
    rw [List.foldl_cons]
    exact foldl_autoStep_error enabled now msg t

/-- A record satisfying the skip condition leaves the store
unchanged. -/
theorem autoStep_skip (enabled : List String) (now : Int) (st : Store) (att : AttendanceDoc)
    (h : autoSkipB st.shifts enabled now att = true) :
    autoStep enabled now (Except.ok st) att = Except.ok st := by
  unfold autoSkipB at h
  simp only [autoStep]
  by_cases h1 : ((!(enabled.contains att.agencyId)) || optStrFalsy att.shiftId) = true
  · rw [if_pos h1]
  · rw [if_neg h1]
    have h1f : ((!(enabled.contains att.agencyId)) || optStrFalsy att.shiftId) = false := by
      cases hc : ((!(enabled.contains att.agencyId)) || optStrFalsy att.shiftId) with
      | true => exact absurd hc h1
      | false => rfl
    rw [h1f, Bool.false_or] at h
    cases hf : st.shifts.find? (fun sh => sh.id == (att.shiftId).getD "") with
    | none => simp only [hf]
    | some sh =>
      simp only [hf] at h
      have he : ¬ (sh.shiftEnd < now) := by simpa using h
      simp only [hf]
      rw [if_neg he]

/-- A fold over records that all satisfy the skip condition is the
identity. -/
theorem foldl_autoStep_skip (enabled : List String) (now : Int) (s : Store) :
    ∀ R : List AttendanceDoc,
      (∀ att ∈ R, autoSkipB s.shifts enabled now att = true) →
      R.foldl (autoStep enabled now) (Except.ok s) = Except.ok s
  | [], _ => rfl
  | att :: t, h => by
    rw [List.foldl_cons, autoStep_skip enabled now s att (h att (by simp))]
    exact foldl_autoStep_skip enabled now s t (fun a ha => h a (by simp [ha]))

/-- Exhaustive behavior of one `autoStep` iteration on a live store:
either the skip condition holds and nothing changes, or the record is
due and a null `clockIn` raises, or the record is due and the two
updates and the alert are performed. -/
theorem autoStep_cases (enabled : List String) (now : Int) (st : Store) (att : AttendanceDoc) :
    (autoSkipB st.shifts enabled now att = true
      ∧ autoStep enabled now (Except.ok st) att = Except.ok st)
    ∨ (autoSkipB st.shifts enabled now att = false ∧ att.clockIn = none
        ∧ autoStep enabled now (Except.ok st) att = Except.error "clockIn missing")
    ∨ (∃ ci, autoSkipB st.shifts enabled now att = false ∧ att.clockIn = some ci
        ∧ autoStep enabled now (Except.ok st) att = Except.ok
            (create_system_alert
              { st with
                attendance := st.attendance.map (updAttDoc att.id now (hoursWorkedCalc now ci)),
                shifts := st.shifts.map (updShiftDoc ((att.shiftId).getD "") now) }
              now att.agencyId "Auto Clock-Out Executed"
              ("Employee " ++ att.userId ++ " auto clocked out at shift end.")
              "medium" "auto_clockout" none)) := by
  by_cases h1 : ((!(enabled.contains att.agencyId)) || optStrFalsy att.shiftId) = true
  · left
    refine ⟨by unfold autoSkipB; rw [h1, Bool.true_or], ?_⟩
    simp only [autoStep]
    rw [if_pos h1]
  · have h1f : ((!(enabled.contains att.agencyId)) || optStrFalsy att.shiftId) = false := by
      cases hc : ((!(enabled.contains att.agencyId)) || optStrFalsy att.shiftId) with
      | true => exact absurd hc h1
      | false => rfl
    have hcE : enabled.contains att.agencyId = true := by
      cases hcc : enabled.contains att.agencyId with
      | true => rfl
      | false =>
        rw [hcc] at h1f
        simp at h1f
    have hsf : optStrFalsy att.shiftId = false := by
      cases hss : optStrFalsy att.shiftId with
      | false => rfl
      | true =>
        rw [hss] at h1f
        simp at h1f
    have hmem : att.agencyId ∈ enabled := by simpa using hcE
    cases hf : st.shifts.find? (fun sh => sh.id == (att.shiftId).getD "") with
    | none =>
      left
      refine ⟨by unfold autoSkipB; rw [hf]; simp [hmem, hsf], ?_⟩
      simp only [autoStep]
      rw [if_neg h1]
      simp only [hf]
    | some sh =>
      by_cases he : sh.shiftEnd < now
      · cases hci : att.clockIn with
        | none =>
          right
          left
          refine ⟨by unfold autoSkipB; rw [hf]; simp [hmem, hsf, he], rfl, ?_⟩
          simp only [autoStep]
          rw [if_neg h1]
          simp only [hf]
          rw [if_pos he]
          simp only [hci]
        | some ci =>
          right
          right
          refine ⟨ci, by unfold autoSkipB; rw [hf]; simp [hmem, hsf, he], rfl, ?_⟩
          simp only [autoStep]
          rw [if_neg h1]
          simp only [hf]
          rw [if_pos he]
          simp only [hci]
      · left
        refine ⟨by unfold autoSkipB; rw [hf]; simp [hmem, hsf, he], ?_⟩
        simp only [autoStep]
        rw [if_neg h1]
        simp only [hf]
        rw [if_neg he]

/-- Invariant of the auto clock-out fold: a successful fold result is
the initial store with the cumulative closes and completions applied;
the recorded update list only grows; and every processed record either
satisfied the skip condition (relative to the initial shifts) or ends
up closed in the final update list. -/
theorem auto_fold_inv (enabled : List String) (now : Int) (st0 : Store) :
    ∀ (R : List AttendanceDoc) (ps : List (String × ℚ)) (sids : List String) (acc s1 : Store),
      acc.agencySettings = st0.agencySettings →
      acc.shifts = st0.shifts.map (completeShift now sids) →
      acc.attendance = st0.attendance.map (closeAtt now ps) →
      R.foldl (autoStep enabled now) (Except.ok acc) = Except.ok s1 →
      ∃ ps' sids',
        s1.agencySettings = st0.agencySettings ∧
        s1.shifts = st0.shifts.map (completeShift now sids') ∧
        s1.attendance = st0.attendance.map (closeAtt now ps') ∧
        (∀ x : String, ps.find? (fun p => p.1 == x) ≠ none → ps'.find? (fun p => p.1 == x) ≠ none) ∧
        (∀ att ∈ R, autoSkipB st0.shifts enabled now att = true
          ∨ ps'.find? (fun p => p.1 == att.id) ≠ none)
  | [], ps, sids, acc, s1, hA, hSh, hAtt, hfold => by
    simp only [List.foldl_nil, Except.ok.injEq] at hfold
    subst hfold
    exact ⟨ps, sids, hA, hSh, hAtt, fun x h => h, fun att h => absurd h (List.not_mem_nil att)⟩
  | att :: R', ps, sids, acc, s1, hA, hSh, hAtt, hfold => by
    rw [List.foldl_cons] at hfold
    rcases autoStep_cases enabled now acc att with ⟨hskip, hstep⟩ | ⟨_, _, hstep⟩ | ⟨ci, _, _, hstep⟩
    · rw [hstep] at hfold
      obtain ⟨ps', sids', h1, h2, h3, h4, h5⟩ :=
        auto_fold_inv enabled now st0 R' ps sids acc s1 hA hSh hAtt hfold
      refine ⟨ps', sids', h1, h2, h3, h4, ?_⟩
      intro att2 hmem
      rcases List.mem_cons.mp hmem with rfl | hmem2
      · left
        rw [hSh] at hskip
        rwa [autoSkipB_map] at hskip
      · exact h5 att2 hmem2
    · rw [hstep, foldl_autoStep_error] at hfold
      simp at hfold
    · rw [hstep] at hfold
      have hA2 : (create_system_alert
          { acc with
            attendance := acc.attendance.map (updAttDoc att.id now (hoursWorkedCalc now ci)),
            shifts := acc.shifts.map (updShiftDoc ((att.shiftId).getD "") now) }
          now att.agencyId "Auto Clock-Out Executed"
          ("Employee " ++ att.userId ++ " auto clocked out at shift end.")
          "medium" "auto_clockout" none).agencySettings = st0.agencySettings := hA
      have hSh2 : (create_system_alert
          { acc with
            attendance := acc.attendance.map (updAttDoc att.id now (hoursWorkedCalc now ci)),
            shifts := acc.shifts.map (updShiftDoc ((att.shiftId).getD "") now) }
          now att.agencyId "Auto Clock-Out Executed"
          ("Employee " ++ att.userId ++ " auto clocked out at shift end.")
          "medium" "auto_clockout" none).shifts
            = st0.shifts.map (completeShift now (((att.shiftId).getD "") :: sids)) := by
        show acc.shifts.map (updShiftDoc ((att.shiftId).getD "") now)
            = st0.shifts.map (completeShift now (((att.shiftId).getD "") :: sids))
        rw [hSh, map_updShift_completeShift]
      have hAtt2 : (create_system_alert
          { acc with
            attendance := acc.attendance.map (updAttDoc att.id now (hoursWorkedCalc now ci)),
            shifts := acc.shifts.map (updShiftDoc ((att.shiftId).getD "") now) }
          now att.agencyId "Auto Clock-Out Executed"
          ("Employee " ++ att.userId ++ " auto clocked out at shift end.")
          "medium" "auto_clockout" none).attendance
            = st0.attendance.map (closeAtt now ((att.id, hoursWorkedCalc now ci) :: ps)) := by
        show acc.attendance.map (updAttDoc att.id now (hoursWorkedCalc now ci))
            = st0.attendance.map (closeAtt now ((att.id, hoursWorkedCalc now ci) :: ps))
        rw [hAtt, map_updAtt_closeAtt]
      obtain ⟨ps', sids', h1, h2, h3, h4, h5⟩ :=
        auto_fold_inv enabled now st0 R' ((att.id, hoursWorkedCalc now ci) :: ps)
          (((att.shiftId).getD "") :: sids) _ s1 hA2 hSh2 hAtt2 hfold
      refine ⟨ps', sids', h1, h2, h3, ?_, ?_⟩
      · intro x hx
        apply h4
        cases hhd : ((fun p : String × ℚ => p.1 == x) (att.id, hoursWorkedCalc now ci)) with
        | true =>
          rw [@List.find?_cons_of_pos (String × ℚ) (fun p => p.1 == x)
            (att.id, hoursWorkedCalc now ci) ps hhd]
          simp
        | false =>
          rw [@List.find?_cons_of_neg (String × ℚ) (fun p => p.1 == x)
            (att.id, hoursWorkedCalc now ci) ps (by simp [hhd])]
          exact hx
      · intro att2 hmem
        rcases List.mem_cons.mp hmem with rfl | hmem2
        · right
          apply h4
          rw [@List.find?_cons_of_pos (String × ℚ) (fun p => p.1 == att2.id)
            (att2.id, hoursWorkedCalc now ci) ps (by simp)]
          simp
        · exact h5 att2 hmem2

/-- C3: `auto_clockout_expired_shifts` is idempotent: when a run
completes with store `s1`, a second run on `s1` at the same time
performs no update and emits no alert (it returns `s1` unchanged): the
second run finds `clockOut` already set on every record the first run
closed and selects no such record, and every record the first run
skipped is skipped again for the same reason. -/
theorem auto_clockout_idempotent (st : Store) (now : Int) (s1 : Store)
    (h : auto_clockout_expired_shifts st now = Except.ok s1) :
    auto_clockout_expired_shifts s1 now = Except.ok s1 := by
  simp only [auto_clockout_expired_shifts] at h ⊢
  obtain ⟨ps', sids', hA, hSh, hAtt, hMono, hAll⟩ :=
    auto_fold_inv ((st.agencySettings.filter (fun s => (s.autoClockOut).getD false)).map (fun s => s.id))
      now st (st.attendance.filter (fun a => a.clockOut == none)) [] [] st s1 rfl
      (by rw [map_completeShift_nil]) (by rw [map_closeAtt_nil]) h
  rw [hA]
  apply foldl_autoStep_skip
  intro att hmem
  obtain ⟨hmem1, hopen⟩ := List.mem_filter.mp hmem
  rw [hAtt] at hmem1
  obtain ⟨a0, ha0, heq⟩ := List.mem_map.mp hmem1
  have hopen2 : att.clockOut = none := by simpa using hopen
  have hfind : ps'.find? (fun p => p.1 == a0.id) = none := by
    cases hfp : ps'.find? (fun p => p.1 == a0.id) with
    | none => rfl
    | some p =>
      exfalso
      rw [← heq] at hopen2
      unfold closeAtt at hopen2
      rw [hfp] at hopen2
      simp at hopen2
  have heq2 : att = a0 := by
    rw [← heq]
    unfold closeAtt
    rw [hfind]
  subst heq2
  have hrec : att ∈ st.attendance.filter (fun a => a.clockOut == none) :=
    List.mem_filter.mpr ⟨ha0, by simp [hopen2]⟩
  rcases hAll att hrec with hskip | hclosed
  · rw [hSh, autoSkipB_map]
    exact hskip
  · exact absurd hfind hclosed

/-- Witness for C3 at the concrete store: the first run closes the
record, and the second run on its result is the identity. -/
theorem auto_clockout_idempotent_witness :
    auto_clockout_expired_shifts s1c 9000 = Except.ok s1c :=
  auto_clockout_idempotent st0c 9000 s1c (by decide)
